import Mathlib

/-!
Verification of the Project Sentinel stream correlation and detection engine
(`data_processor.py`, `event_detector.py`).

The Python code is shallowly embedded: buffers are lists (newest at the
tail), Python floats holding prices / weights / risk scores / timestamps are
rationals, dictionaries are association lists preserving insertion order,
and exceptions are `Except`.  Payload fields that no claim mentions are
omitted from the record structures; all control flow of the embedded
functions follows the source line by line.
-/

/-! ## Recency slices

`get_recent_data(collection, count)` returns `list(collection)[-count:]`,
i.e. the `count` most recent elements (the whole list when shorter). -/

def lastN (n : ℕ) (l : List α) : List α := l.drop (l.length - n)

theorem lastN_of_le {n : ℕ} {l : List α} (h : l.length ≤ n) : lastN n l = l := by
  simp [lastN, Nat.sub_eq_zero_of_le h]

theorem lastN_length (n : ℕ) (l : List α) : (lastN n l).length = min n l.length := by
  simp [lastN]
  omega

theorem lastN_length_le (n : ℕ) (l : List α) : (lastN n l).length ≤ n := by
  rw [lastN_length]; omega

theorem lastN_append_lastN (n : ℕ) (A xs : List α) :
    lastN n (lastN n A ++ xs) = lastN n (A ++ xs) := by
  by_cases h : A.length ≤ n
  · rw [lastN_of_le h]
  · push_neg at h
    have hlenB : (lastN n A).length = n := by rw [lastN_length]; omega
    have e1 : lastN n (lastN n A ++ xs) = (lastN n A ++ xs).drop xs.length := by
      rw [lastN, List.length_append, hlenB]
      congr 1
      omega
    have e2 : lastN n (A ++ xs) = (lastN n A ++ xs).drop xs.length := by
      have hidx : (A ++ xs).length - n = (A.length - n) + xs.length := by
        rw [List.length_append]; omega
      rw [lastN, hidx, ← List.drop_drop,
          List.drop_append_of_le_length (by omega)]
      rfl
    rw [e1, e2]

/-! ## C2 — ingestion buffer bound

`DataProcessor.__init__` builds each per-source buffer as `deque(maxlen=200)`;
`DataProcessor.process_event` appends the record and then, if the length
exceeds `max_events = 100`, pops one element from the left.  The effective
capacity is therefore `N = 100`. -/

/-- `collections.deque(maxlen=200).append(x)`: drop the oldest element when
full, then insert at the tail. -/
def dequeAppend (maxlen : ℕ) (buf : List α) (x : α) : List α :=
  if maxlen ≤ buf.length then buf.drop 1 ++ [x] else buf ++ [x]

/-- One `process_event` append for a sensor buffer: `deque.append` followed by
the manual `popleft` when the length exceeds `max_events = 100`. -/
def processEventAppend (buf : List α) (x : α) : List α :=
  let b := dequeAppend 200 buf x
  if 100 < b.length then b.drop 1 else b

/-- A whole sequence of `process_event` appends into an initially empty
buffer. -/
def runAppends (xs : List α) : List α := xs.foldl processEventAppend []

theorem processEventAppend_eq (buf : List α) (x : α) (h : buf.length ≤ 100) :
    processEventAppend buf x = lastN 100 (buf ++ [x]) := by
  unfold processEventAppend dequeAppend
  have h200 : ¬ (200 ≤ buf.length) := by omega
  rw [if_neg h200]
  simp only [lastN, List.length_append, List.length_singleton]
  by_cases h100 : 100 < buf.length + 1
  · rw [if_pos (by simpa using h100)]
    have : buf.length + 1 - 100 = 1 := by omega
    rw [this]
  · rw [if_neg (by simpa using h100)]
    have : buf.length + 1 - 100 = 0 := by omega
    rw [this, List.drop_zero]

theorem foldl_processEventAppend (xs : List α) :
    ∀ buf : List α, buf.length ≤ 100 →
      xs.foldl processEventAppend buf = lastN 100 (buf ++ xs) := by
  induction xs with
  | nil => intro buf h; simp [lastN_of_le h]
  | cons x xs ih =>
    intro buf h
    rw [List.foldl_cons, processEventAppend_eq buf x h,
        ih _ (by rw [lastN_length]; omega),
        lastN_append_lastN]
    simp

theorem runAppends_eq (xs : List α) : runAppends xs = lastN 100 xs := by
  simpa using foldl_processEventAppend xs [] (by simp)

/-- C2: for the effective capacity `N = 100` enforced by `process_event`
(a `deque(maxlen=200)` trimmed to `max_events = 100` on every append), any
sequence of appends leaves the buffer holding exactly the 100 most recent
records once at least 100 records were appended, and the size stays at most
100 at every intermediate point. -/
theorem C2_buffer_bound (α : Type) (xs : List α) :
    (∀ pre suf : List α, xs = pre ++ suf → (runAppends pre).length ≤ 100)
    ∧ (100 ≤ xs.length → runAppends xs = lastN 100 xs) := by
  constructor
  · intro pre _ _
    rw [runAppends_eq]
    exact lastN_length_le 100 pre
  · intro _
    exact runAppends_eq xs

/-- Witness for C2 at a concrete run of 103 appends. -/
theorem C2_buffer_bound_witness :
    (runAppends (List.range 103)).length ≤ 100
    ∧ runAppends (List.range 103) = lastN 100 (List.range 103) := by
  refine ⟨(C2_buffer_bound ℕ (List.range 103)).1 (List.range 103) [] (by simp), ?_⟩
  exact (C2_buffer_bound ℕ (List.range 103)).2 (by simp)

/-! ## Alerts and the adaptive suppression filter

`EventDetector.apply_adaptive_filtering` groups the cycle's candidate events
by the key `f"{event_name}_{severity}"` (a Python dict, insertion-ordered),
passes every `critical` category through unfiltered, and for the other
categories emits the first candidate only when the per-key suppression
window has elapsed, recording the acceptance time.

Severities are modelled as the four values the detectors actually produce,
so the key round-trip through `rsplit('_', 1)` is the identity. -/

inductive Sev where
  | low
  | medium
  | high
  | critical
deriving DecidableEq

/-- The fields of a detector event that the filtering and deduplication
layers inspect: `event_name`, `severity`, `station_id`, `customer_id` and
the (parsed) timestamp in seconds.  Other payload fields are irrelevant to
those layers and are omitted. -/
structure AlertEvent where
  name : String
  sev : Sev
  station : Option String
  customer : Option String
  ts : ℚ
deriving DecidableEq

def eventKey (e : AlertEvent) : String × Sev := (e.name, e.sev)

/-- Insertion-ordered key list of `event_categories` (a `defaultdict(list)`
filled in input order). -/
def groupKeys (es : List AlertEvent) : List (String × Sev) :=
  es.foldl (fun ks e => if eventKey e ∈ ks then ks else ks ++ [eventKey e]) []

/-- `{'high': 10, 'medium': 15, 'low': 30}.get(severity, 15)`. -/
def suppressionMinutes : Sev → ℚ
  | .high => 10
  | .medium => 15
  | .low => 30
  | .critical => 15

/-- `alert_system['suppression_windows']`: a map from category key to the
timestamp of the last accepted alert, read with default `0`. -/
abbrev SwState : Type := List ((String × Sev) × ℚ)

def swLookup (sw : SwState) (k : String × Sev) : ℚ :=
  ((sw.find? (fun kv => kv.1 = k)).map (fun kv => kv.2)).getD 0

/-- Python dict assignment `suppression_windows[key] = now`: overwrite the
existing entry, or append a new one. -/
def swUpdate (sw : SwState) (k : String × Sev) (t : ℚ) : SwState :=
  if (sw.find? (fun kv => kv.1 = k)).isSome then
    sw.map (fun kv => if kv.1 = k then (k, t) else kv)
  else
    sw ++ [(k, t)]

/-- The loop body of `apply_adaptive_filtering`, iterating over the category
keys in insertion order.  For each category: pass all events through when
the severity is `critical`; otherwise accept the first event of the category
only when `now - last_alert_time > suppression_minutes * 60`, updating the
suppression window. -/
def filterLoop (now : ℚ) (es : List AlertEvent) (sw : SwState) :
    List (String × Sev) → List AlertEvent × SwState
  | [] => ([], sw)
  | k :: ks =>
    if k.2 = Sev.critical then
      (es.filter (fun e => eventKey e = k) ++ (filterLoop now es sw ks).1,
       (filterLoop now es sw ks).2)
    else if suppressionMinutes k.2 * 60 < now - swLookup sw k then
      match es.filter (fun e => eventKey e = k) with
      | [] => filterLoop now es sw ks
      | e :: _ =>
        (e :: (filterLoop now es (swUpdate sw k now) ks).1,
         (filterLoop now es (swUpdate sw k now) ks).2)
    else
      filterLoop now es sw ks

/-- `EventDetector.apply_adaptive_filtering`, returning the filtered events
and the updated suppression-window state. -/
def applyAdaptiveFiltering (sw : SwState) (now : ℚ) (es : List AlertEvent) :
    List AlertEvent × SwState :=
  filterLoop now es sw (groupKeys es)

/-! ## Deduplication against the alert history

`EventDetector.is_duplicate_event` compares a new event against the last 10
events of `detected_events`: same `event_name` and `station_id` with
timestamps less than 300 seconds apart means duplicate.  `detect_all_events`
appends each filtered event to the history unless it is a duplicate. -/

def isDuplicateEvent (hist : List AlertEvent) (e : AlertEvent) : Bool :=
  (lastN 10 hist).any
    (fun ex => e.name = ex.name && e.station = ex.station && e.ts - ex.ts < 300)

def addEvents (hist : List AlertEvent) (es : List AlertEvent) : List AlertEvent :=
  es.foldl (fun h e => if isDuplicateEvent h e then h else h ++ [e]) hist

/-! ## The detection cycle's exception handling

`detect_all_events` runs the whole detector battery inside a single
`try`/`except`: the detectors run in order, a raised exception aborts the
remaining detectors and the filtering step, and the handler leaves
`filtered_events = []`.  Each detector is modelled by its outcome: the list
of candidate events it returns, or the exception message it raises. -/

def runDetectorBattery : List (Except String (List AlertEvent)) →
    Except String (List AlertEvent)
  | [] => .ok []
  | .error msg :: _ => .error msg
  | .ok evs :: rest =>
    match runDetectorBattery rest with
    | .ok more => .ok (evs ++ more)
    | .error msg => .error msg

/-- `detect_all_events`' returned `filtered_events`: the adaptive filter
applied to the concatenated detector outputs, or `[]` when any detector
raised. -/
def detectAllEvents (sw : SwState) (now : ℚ)
    (results : List (Except String (List AlertEvent))) : List AlertEvent :=
  match runDetectorBattery results with
  | .ok evs => (applyAdaptiveFiltering sw now evs).1
  | .error _ => []

/-! ## Suppression-state lemmas -/

theorem swLookup_cons_eq (kv : (String × Sev) × ℚ) (sw : SwState)
    (k : String × Sev) (h : kv.1 = k) : swLookup (kv :: sw) k = kv.2 := by
  unfold swLookup
  rw [List.find?_cons_of_pos _ (by simpa using h)]
  rfl

theorem swLookup_cons_ne (kv : (String × Sev) × ℚ) (sw : SwState)
    (k : String × Sev) (h : ¬ kv.1 = k) : swLookup (kv :: sw) k = swLookup sw k := by
  unfold swLookup
  rw [List.find?_cons_of_neg _ (by simpa using h)]

theorem swLookup_map_self (k : String × Sev) (t : ℚ) :
    ∀ sw : SwState, (sw.find? (fun kv => kv.1 = k)).isSome →
      swLookup (sw.map (fun kv => if kv.1 = k then (k, t) else kv)) k = t := by
  intro sw
  induction sw with
  | nil => intro hs; simp at hs
  | cons kv sw ih =>
    intro hs
    simp only [List.map_cons]
    by_cases h1 : kv.1 = k
    · rw [if_pos h1, swLookup_cons_eq _ _ _ rfl]
    · rw [if_neg h1, swLookup_cons_ne _ _ _ h1]
      apply ih
      rw [List.find?_cons_of_neg _ (by simpa using h1)] at hs
      exact hs

theorem swLookup_append_self (k : String × Sev) (t : ℚ) :
    ∀ sw : SwState, ¬ (sw.find? (fun kv => kv.1 = k)).isSome →
      swLookup (sw ++ [(k, t)]) k = t := by
  intro sw
  induction sw with
  | nil => intro _; rw [List.nil_append, swLookup_cons_eq _ _ _ rfl]
  | cons kv sw ih =>
    intro hs
    by_cases h1 : kv.1 = k
    · exact absurd (by rw [List.find?_cons_of_pos _ (by simpa using h1)]; rfl) hs
    · rw [List.cons_append, swLookup_cons_ne _ _ _ h1]
      apply ih
      intro hsw
      apply hs
      rw [List.find?_cons_of_neg _ (by simpa using h1)]
      exact hsw

theorem swLookup_swUpdate_self (sw : SwState) (k : String × Sev) (t : ℚ) :
    swLookup (swUpdate sw k t) k = t := by
  unfold swUpdate
  split
  case isTrue hs => exact swLookup_map_self k t sw hs
  case isFalse hs => exact swLookup_append_self k t sw hs

theorem swLookup_map_ne (k k' : String × Sev) (t : ℚ) (hne : k' ≠ k) :
    ∀ sw : SwState,
      swLookup (sw.map (fun kv => if kv.1 = k' then (k', t) else kv)) k
        = swLookup sw k := by
  intro sw
  induction sw with
  | nil => rfl
  | cons kv sw ih =>
    simp only [List.map_cons]
    by_cases h1 : kv.1 = k'
    · rw [if_pos h1, swLookup_cons_ne _ _ _ hne, swLookup_cons_ne _ _ _ (h1 ▸ hne)]
      exact ih
    · rw [if_neg h1]
      by_cases h2 : kv.1 = k
      · rw [swLookup_cons_eq _ _ _ h2, swLookup_cons_eq _ _ _ h2]
      · rw [swLookup_cons_ne _ _ _ h2, swLookup_cons_ne _ _ _ h2]
        exact ih

theorem swLookup_append_ne (k k' : String × Sev) (t : ℚ) (hne : k' ≠ k) :
    ∀ sw : SwState, swLookup (sw ++ [(k', t)]) k = swLookup sw k := by
  intro sw
  induction sw with
  | nil =>
    rw [List.nil_append, swLookup_cons_ne _ _ _ hne]
  | cons kv sw ih =>
    by_cases h2 : kv.1 = k
    · rw [List.cons_append, swLookup_cons_eq _ _ _ h2, swLookup_cons_eq _ _ _ h2]
    · rw [List.cons_append, swLookup_cons_ne _ _ _ h2, swLookup_cons_ne _ _ _ h2]
      exact ih

theorem swLookup_swUpdate_ne (sw : SwState) (k k' : String × Sev) (t : ℚ)
    (hne : k' ≠ k) : swLookup (swUpdate sw k' t) k = swLookup sw k := by
  unfold swUpdate
  split
  · exact swLookup_map_ne k k' t hne sw
  · exact swLookup_append_ne k k' t hne sw

theorem suppressionMinutes_nonneg (s : Sev) : 0 ≤ suppressionMinutes s := by
  cases s <;> norm_num [suppressionMinutes]

/-! ## Category-key lemmas -/

theorem mem_foldl_groupStep (es : List AlertEvent) :
    ∀ (ks : List (String × Sev)) (k : String × Sev), k ∈ ks →
      k ∈ es.foldl
            (fun ks e => if eventKey e ∈ ks then ks else ks ++ [eventKey e]) ks := by
  induction es with
  | nil => intro ks k h; simpa using h
  | cons e es ih =>
    intro ks k h
    rw [List.foldl_cons]
    apply ih
    by_cases he : eventKey e ∈ ks
    · simpa [he] using h
    · simp only [if_neg he]
      exact List.mem_append_left _ h

theorem eventKey_mem_groupKeys_aux (e : AlertEvent) :
    ∀ (es : List AlertEvent) (ks : List (String × Sev)), e ∈ es →
      eventKey e ∈ es.foldl
        (fun ks e => if eventKey e ∈ ks then ks else ks ++ [eventKey e]) ks := by
  intro es
  induction es with
  | nil => intro ks h; cases h
  | cons e' es ih =>
    intro ks h
    rw [List.foldl_cons]
    rcases List.mem_cons.mp h with h1 | h2
    · subst h1
      apply mem_foldl_groupStep
      by_cases he : eventKey e ∈ ks
      · simp [he]
      · simp [he]
    · exact ih _ h2

theorem eventKey_mem_groupKeys {e : AlertEvent} {es : List AlertEvent}
    (h : e ∈ es) : eventKey e ∈ groupKeys es :=
  eventKey_mem_groupKeys_aux e es [] h

/-! ## Behaviour of the adaptive filter -/

theorem filterLoop_mem_critical (now : ℚ) (es : List AlertEvent) (e : AlertEvent)
    (hmem : e ∈ es) (hcrit : e.sev = Sev.critical) :
    ∀ (ks : List (String × Sev)) (sw : SwState), eventKey e ∈ ks →
      e ∈ (filterLoop now es sw ks).1 := by
  intro ks
  induction ks with
  | nil => intro sw h; cases h
  | cons k ks ih =>
    intro sw h
    simp only [filterLoop]
    rcases List.mem_cons.mp h with h1 | h2
    · rw [if_pos (by rw [← h1]; exact hcrit)]
      apply List.mem_append_left
      rw [List.mem_filter]
      exact ⟨hmem, by simp [h1]⟩
    · split
      · exact List.mem_append_right _ (ih sw h2)
      · split
        · split
          · exact ih sw h2
          · exact List.mem_cons_of_mem _ (ih _ h2)
        · exact ih sw h2

theorem filterLoop_no_accept (now : ℚ) (es : List AlertEvent) (k : String × Sev)
    (hk : k.2 ≠ Sev.critical) :
    ∀ (ks : List (String × Sev)) (sw : SwState),
      ¬ (suppressionMinutes k.2 * 60 < now - swLookup sw k) →
      (filterLoop now es sw ks).1.filter (fun e => eventKey e = k) = [] := by
  intro ks
  induction ks with
  | nil => intro sw _; simp [filterLoop]
  | cons k' ks ih =>
    intro sw h
    simp only [filterLoop]
    by_cases hc : k'.2 = Sev.critical
    · rw [if_pos hc]
      have hne : k' ≠ k := fun hkk => hk (hkk ▸ hc)
      show (es.filter (fun e => eventKey e = k')
              ++ (filterLoop now es sw ks).1).filter (fun e => eventKey e = k) = []
      rw [List.filter_append, ih sw h, List.append_nil, List.filter_eq_nil_iff]
      intro a ha
      have hk' : eventKey a = k' := by simpa using (List.mem_filter.mp ha).2
      simp [hk', hne]
    · rw [if_neg hc]
      by_cases hw : suppressionMinutes k'.2 * 60 < now - swLookup sw k'
      · rw [if_pos hw]
        cases hces : es.filter (fun e => eventKey e = k') with
        | nil => simp only [hces]; exact ih sw h
        | cons e' rest =>
          simp only [hces]
          by_cases hkk : k' = k
          · subst hkk; exact absurd hw h
          · have he' : eventKey e' = k' := by
              have hmem : e' ∈ es.filter (fun e => eventKey e = k') := by
                rw [hces]; exact List.mem_cons_self _ _
              simpa using (List.mem_filter.mp hmem).2
            show (e' :: (filterLoop now es (swUpdate sw k' now) ks).1).filter
                (fun e => eventKey e = k) = []
            rw [List.filter_cons_of_neg (by simp [he', hkk])]
            apply ih
            rw [swLookup_swUpdate_ne sw k k' now hkk]
            exact h
      · rw [if_neg hw]; exact ih sw h

theorem filterLoop_filter_key (now : ℚ) (es : List AlertEvent) (k : String × Sev)
    (hk : k.2 ≠ Sev.critical) :
    ∀ (ks : List (String × Sev)) (sw : SwState),
      (filterLoop now es sw ks).1.filter (fun e => eventKey e = k) = []
      ∨ (filterLoop now es sw ks).1.filter (fun e => eventKey e = k)
          = (es.filter (fun e => eventKey e = k)).take 1 := by
  intro ks
  induction ks with
  | nil => intro sw; left; simp [filterLoop]
  | cons k' ks ih =>
    intro sw
    simp only [filterLoop]
    by_cases hc : k'.2 = Sev.critical
    · rw [if_pos hc]
      have hne : k' ≠ k := fun hkk => hk (hkk ▸ hc)
      have hces : (es.filter (fun e => eventKey e = k')).filter
          (fun e => eventKey e = k) = [] := by
        rw [List.filter_eq_nil_iff]
        intro a ha
        have hk' : eventKey a = k' := by simpa using (List.mem_filter.mp ha).2
        simp [hk', hne]
      have hgoal : (es.filter (fun e => eventKey e = k')
            ++ (filterLoop now es sw ks).1).filter (fun e => eventKey e = k)
          = (filterLoop now es sw ks).1.filter (fun e => eventKey e = k) := by
        rw [List.filter_append, hces, List.nil_append]
      rcases ih sw with h1 | h1
      · left
        show (es.filter (fun e => eventKey e = k')
            ++ (filterLoop now es sw ks).1).filter (fun e => eventKey e = k) = []
        rw [hgoal, h1]
      · right
        show (es.filter (fun e => eventKey e = k')
              ++ (filterLoop now es sw ks).1).filter (fun e => eventKey e = k)
            = (es.filter (fun e => eventKey e = k)).take 1
        rw [hgoal, h1]
    · rw [if_neg hc]
      by_cases hw : suppressionMinutes k'.2 * 60 < now - swLookup sw k'
      · rw [if_pos hw]
        cases hces : es.filter (fun e => eventKey e = k') with
        | nil => simp only [hces]; exact ih sw
        | cons e' rest =>
          simp only [hces]
          have he' : eventKey e' = k' := by
            have hmem : e' ∈ es.filter (fun e => eventKey e = k') := by
              rw [hces]; exact List.mem_cons_self _ _
            simpa using (List.mem_filter.mp hmem).2
          by_cases hkk : k' = k
          · subst hkk
            right
            show (e' :: (filterLoop now es (swUpdate sw k' now) ks).1).filter
                (fun e => eventKey e = k') = (es.filter (fun e => eventKey e = k')).take 1
            have hside : ¬ suppressionMinutes k'.2 * 60
                < now - swLookup (swUpdate sw k' now) k' := by
              rw [swLookup_swUpdate_self, sub_self]
              have := suppressionMinutes_nonneg k'.2
              intro hlt
              linarith
            rw [List.filter_cons_of_pos (by simp [he']),
                filterLoop_no_accept now es k' hk ks (swUpdate sw k' now) hside, hces]
            rfl
          · show ((e' :: (filterLoop now es (swUpdate sw k' now) ks).1).filter
                (fun e => eventKey e = k) = [])
              ∨ ((e' :: (filterLoop now es (swUpdate sw k' now) ks).1).filter
                (fun e => eventKey e = k) = (es.filter (fun e => eventKey e = k)).take 1)
            rw [List.filter_cons_of_neg (by simp [he', hkk])]
            exact ih (swUpdate sw k' now)
      · rw [if_neg hw]; exact ih sw

/-- C5: a critical-severity candidate is always accepted by
`apply_adaptive_filtering`, whatever the suppression-window state —
criticals bypass suppression entirely, so in particular an
identical-category acceptance seconds earlier does not drop them (the
separate exact-identity dedup happens later, in `is_duplicate_event`). -/
theorem C5_critical_bypass (sw : SwState) (now : ℚ) (es : List AlertEvent)
    (e : AlertEvent) (hmem : e ∈ es) (hcrit : e.sev = Sev.critical) :
    e ∈ (applyAdaptiveFiltering sw now es).1 :=
  filterLoop_mem_critical now es e hmem hcrit (groupKeys es) sw
    (eventKey_mem_groupKeys hmem)

/-- Witness for C5: a critical candidate passes although the same category
was accepted one second earlier. -/
theorem C5_critical_bypass_witness :
    (⟨"Coordinated Multi-Station Fraud", Sev.critical, some "SCC1", none, 1000⟩
        : AlertEvent)
      ∈ (applyAdaptiveFiltering
          [((("Coordinated Multi-Station Fraud"), Sev.critical), 999)] 1000
          [⟨"Coordinated Multi-Station Fraud", Sev.critical, some "SCC1", none,
            1000⟩]).1 :=
  C5_critical_bypass
    [((("Coordinated Multi-Station Fraud"), Sev.critical), 999)] 1000
    [⟨"Coordinated Multi-Station Fraud", Sev.critical, some "SCC1", none, 1000⟩]
    ⟨"Coordinated Multi-Station Fraud", Sev.critical, some "SCC1", none, 1000⟩
    (List.mem_singleton_self _) rfl

/-- C10: in one filtering pass, the output contains at most one non-critical
event per `(event_name, severity)` key, and when one is emitted it is the
first candidate of that category in input order. -/
theorem C10_one_per_category (sw : SwState) (now : ℚ) (es : List AlertEvent)
    (k : String × Sev) (hk : k.2 ≠ Sev.critical) :
    (applyAdaptiveFiltering sw now es).1.filter (fun e => eventKey e = k) = []
    ∨ (applyAdaptiveFiltering sw now es).1.filter (fun e => eventKey e = k)
        = (es.filter (fun e => eventKey e = k)).take 1 :=
  filterLoop_filter_key now es k hk (groupKeys es) sw

/-- Witness for C10: two candidates of the same non-critical category from
two different stations. -/
theorem C10_one_per_category_witness :
    (applyAdaptiveFiltering [] 10000
        [⟨"Long Queue Alert", Sev.high, some "RC1", none, 10000⟩,
         ⟨"Long Queue Alert", Sev.high, some "RC2", none, 10000⟩]).1.filter
          (fun e => eventKey e = (("Long Queue Alert"), Sev.high)) = []
    ∨ (applyAdaptiveFiltering [] 10000
        [⟨"Long Queue Alert", Sev.high, some "RC1", none, 10000⟩,
         ⟨"Long Queue Alert", Sev.high, some "RC2", none, 10000⟩]).1.filter
          (fun e => eventKey e = (("Long Queue Alert"), Sev.high))
        = ([⟨"Long Queue Alert", Sev.high, some "RC1", none, 10000⟩,
            ⟨"Long Queue Alert", Sev.high, some "RC2", none, 10000⟩].filter
            (fun e => eventKey e = (("Long Queue Alert"), Sev.high))).take 1 :=
  C10_one_per_category [] 10000
    [⟨"Long Queue Alert", Sev.high, some "RC1", none, 10000⟩,
     ⟨"Long Queue Alert", Sev.high, some "RC2", none, 10000⟩]
    (("Long Queue Alert"), Sev.high) (by decide)

/-- C6 counterexample: at `now - last_accepted` exactly equal to the window
(10 minutes for `high`), the claim says the alert is accepted, but the code's
strict `>` test drops it: the filter emits nothing at that boundary even
though the claim's drop condition `now - last_accepted < window` is false. -/
theorem C6_boundary_counterexample :
    (applyAdaptiveFiltering [((("Long Queue Alert"), Sev.high), 0)] 600
        [⟨"Long Queue Alert", Sev.high, some "RC1", none, 600⟩]).1 = []
    ∧ ¬ ((600 : ℚ) - swLookup [((("Long Queue Alert"), Sev.high), 0)]
            (("Long Queue Alert"), Sev.high)
          < suppressionMinutes Sev.high * 60) := by
  constructor
  · norm_num [applyAdaptiveFiltering, groupKeys, filterLoop, eventKey,
      swLookup, suppressionMinutes]
    rw [if_neg (by decide)]
  · norm_num [swLookup, suppressionMinutes]

/-- C6 (amended): for a non-critical candidate, the suppressor drops it when
`now - last_accepted` is at most the category window (10 min for high, 15
for medium, 30 for low — the code's test is the strict `>`), leaving the
suppression state untouched; when `now - last_accepted` strictly exceeds the
window it accepts the candidate and overwrites the pair's last-accepted
timestamp with the current time. -/
theorem C6_suppression_window (sw : SwState) (now : ℚ) (e : AlertEvent)
    (hcrit : e.sev ≠ Sev.critical) :
    (now - swLookup sw (eventKey e) ≤ suppressionMinutes e.sev * 60 →
        (applyAdaptiveFiltering sw now [e]).1 = []
        ∧ (applyAdaptiveFiltering sw now [e]).2 = sw)
    ∧ (suppressionMinutes e.sev * 60 < now - swLookup sw (eventKey e) →
        (applyAdaptiveFiltering sw now [e]).1 = [e]
        ∧ swLookup (applyAdaptiveFiltering sw now [e]).2 (eventKey e) = now) := by
  have hg : groupKeys [e] = [eventKey e] := by simp [groupKeys]
  have hf : [e].filter (fun x => eventKey x = eventKey e) = [e] := by simp
  unfold applyAdaptiveFiltering
  rw [hg]
  constructor
  · intro h
    have hcond : ¬ (suppressionMinutes (eventKey e).2 * 60
        < now - swLookup sw (eventKey e)) := by
      show ¬ (suppressionMinutes e.sev * 60 < now - swLookup sw (eventKey e))
      linarith
    simp only [filterLoop]
    rw [if_neg (show ¬ ((eventKey e).2 = Sev.critical) from hcrit), if_neg hcond]
    exact ⟨rfl, rfl⟩
  · intro h
    have hcond : suppressionMinutes (eventKey e).2 * 60
        < now - swLookup sw (eventKey e) := h
    simp only [filterLoop]
    rw [if_neg (show ¬ ((eventKey e).2 = Sev.critical) from hcrit), if_pos hcond, hf]
    refine ⟨rfl, ?_⟩
    show swLookup (swUpdate sw (eventKey e) now) (eventKey e) = now
    exact swLookup_swUpdate_self sw (eventKey e) now

/-- Witness for C6 (amended): with an empty suppression state and
`now = 1000`, a medium-severity candidate (window 900 s) is accepted and the
suppression entry is set to 1000. -/
theorem C6_suppression_window_witness :
    (applyAdaptiveFiltering [] 1000
        [⟨"Weight Discrepancy", Sev.medium, some "SCC1", some "C1", 1000⟩]).1
      = [⟨"Weight Discrepancy", Sev.medium, some "SCC1", some "C1", 1000⟩]
    ∧ swLookup (applyAdaptiveFiltering [] 1000
          [⟨"Weight Discrepancy", Sev.medium, some "SCC1", some "C1", 1000⟩]).2
        (eventKey ⟨"Weight Discrepancy", Sev.medium, some "SCC1", some "C1", 1000⟩)
      = 1000 :=
  (C6_suppression_window [] 1000
      ⟨"Weight Discrepancy", Sev.medium, some "SCC1", some "C1", 1000⟩
      (by decide)).2
    (by norm_num [swLookup, suppressionMinutes])

/-! ## C4 — duplicate identity suppression -/

theorem last_mem_lastN (n : ℕ) (hn : 0 < n) (A : List α) (a : α) :
    a ∈ lastN n (A ++ [a]) := by
  unfold lastN
  rcases le_or_lt (A ++ [a]).length n with h | h
  · rw [Nat.sub_eq_zero_of_le h, List.drop_zero]
    exact List.mem_append_right _ (List.mem_singleton_self a)
  · have hle : (A ++ [a]).length - n ≤ A.length := by
      simp only [List.length_append, List.length_singleton] at *
      omega
    rw [List.drop_append_of_le_length hle]
    exact List.mem_append_right _ (List.mem_singleton_self a)

/-- C4: submitting the same candidate identity (same `event_name`,
`station_id`, `customer_id`) twice within 5 minutes (`< 300` seconds apart)
appends exactly the first of the two to the alert history — the second is
dropped by `is_duplicate_event`.  (The code's duplicate test only compares
`event_name` and `station_id`, which the shared identity satisfies.) -/
theorem C4_duplicate_suppression (hist : List AlertEvent) (e₁ e₂ : AlertEvent)
    (h₁ : isDuplicateEvent hist e₁ = false)
    (hname : e₂.name = e₁.name) (hstation : e₂.station = e₁.station)
    (_hcust : e₂.customer = e₁.customer) (ht : e₂.ts - e₁.ts < 300) :
    addEvents hist [e₁, e₂] = hist ++ [e₁] := by
  unfold addEvents
  simp only [List.foldl_cons, List.foldl_nil, h₁, Bool.false_eq_true, if_false]
  have hdup : isDuplicateEvent (hist ++ [e₁]) e₂ = true := by
    unfold isDuplicateEvent
    rw [List.any_eq_true]
    refine ⟨e₁, last_mem_lastN 10 (by norm_num) hist e₁, ?_⟩
    simp [hname, hstation, ht]
  simp [hdup]

/-- Witness for C4 at a concrete pair of events 60 seconds apart. -/
theorem C4_duplicate_suppression_witness :
    addEvents []
        [⟨"Scanner Avoidance", Sev.high, some "SCO-003", some "C1", 100⟩,
         ⟨"Scanner Avoidance", Sev.high, some "SCO-003", some "C1", 160⟩]
      = [] ++ [⟨"Scanner Avoidance", Sev.high, some "SCO-003", some "C1", 100⟩] :=
  C4_duplicate_suppression []
    ⟨"Scanner Avoidance", Sev.high, some "SCO-003", some "C1", 100⟩
    ⟨"Scanner Avoidance", Sev.high, some "SCO-003", some "C1", 160⟩
    rfl rfl rfl rfl (by norm_num)

/-! ## C7 — a single detector failure aborts the whole cycle -/

/-- C7, evaluated at the failing input: in a cycle whose second detector
raises (`ZeroDivisionError`), `detect_all_events` returns `[]` — the alerts
of the first detector are discarded and the third detector's critical alert
is never emitted — whereas the same cycle without the failure emits both
alerts.  The single `try`/`except` around the whole battery does not isolate
per-detector failures. -/
theorem C7_single_try_aborts_cycle :
    detectAllEvents [] 10000
        [.ok [⟨"Weight Discrepancy", Sev.medium, some "SCC1", some "C1", 10000⟩],
         .error "ZeroDivisionError",
         .ok [⟨"Coordinated Multi-Station Fraud", Sev.critical, some "RC1", none,
                10000⟩]] = []
    ∧ detectAllEvents [] 10000
        [.ok [⟨"Weight Discrepancy", Sev.medium, some "SCC1", some "C1", 10000⟩],
         .ok [],
         .ok [⟨"Coordinated Multi-Station Fraud", Sev.critical, some "RC1", none,
                10000⟩]]
      = [⟨"Weight Discrepancy", Sev.medium, some "SCC1", some "C1", 10000⟩,
         ⟨"Coordinated Multi-Station Fraud", Sev.critical, some "RC1", none,
            10000⟩] := by
  have h1 : Sev.medium ≠ Sev.critical := by decide
  have h2 : Sev.critical ≠ Sev.medium := by decide
  constructor
  · rfl
  · norm_num [detectAllEvents, runDetectorBattery, applyAdaptiveFiltering,
      groupKeys, filterLoop, eventKey, swLookup, suppressionMinutes, swUpdate,
      h1, h2]

/-! ## Catalog and sensor records

`products_db` maps SKU to the product row (name, category, price, weight,
quantity).  Python string operations used by the detectors are modelled on
the character lists of the strings. -/

structure Product where
  name : String
  category : String
  price : ℚ
  weight : ℚ
  quantity : ℤ
deriving DecidableEq

abbrev ProductsDb : Type := List (String × Product)

/-- `sku in products_db and products_db[sku]` for an optional field value:
`None` is never a catalog key. -/
def lookupProduct (db : ProductsDb) (sku : Option String) : Option Product :=
  sku.bind (fun s => (db.find? (fun kv => kv.1 = s)).map (fun kv => kv.2))

/-- `float(products_db.get(sku, {}).get('price', 0))`. -/
def productPrice (db : ProductsDb) (sku : Option String) : ℚ :=
  ((lookupProduct db sku).map (fun p => p.price)).getD 0

/-- Python truthiness of an optional string field (`None` and `''` are
falsy). -/
def truthyStr : Option String → Bool
  | none => false
  | some s => !s.data.isEmpty

/-- `str.lower()` (per-character, as for the ASCII catalog strings). -/
def strLower (s : String) : String := ⟨s.data.map Char.toLower⟩

/-- `a.startswith(b)` on the underlying characters. -/
def chStarts : List Char → List Char → Bool
  | _, [] => true
  | [], _ :: _ => false
  | c :: cs, d :: ds => c = d && chStarts cs ds

def strStarts (s pre : String) : Bool := chStarts s.data pre.data

/-- Python substring test `b in a` on the underlying characters. -/
def chContains : List Char → List Char → Bool
  | [], pat => chStarts [] pat
  | c :: rest, pat => chStarts (c :: rest) pat || chContains rest pat

def strContains (s sub : String) : Bool := chContains s.data sub.data

/-- A POS transaction's fields used by the detectors
(`station_id`, `data.customer_id`, `data.sku`, `data.price`, `data.weight`,
with the Python `.get(..., 0)` defaults made explicit values). -/
structure PosRecord where
  station : String
  customer : Option String
  sku : Option String
  price : ℚ
  weight : ℚ
deriving DecidableEq

/-- An RFID reading's fields used by the detectors. -/
structure RfidRecord where
  station : String
  customer : Option String
  sku : Option String
  loc : String
deriving DecidableEq

/-- A product-recognition event's fields used by the detectors. -/
structure RecogRecord where
  station : String
  customer : Option String
  sku : Option String
deriving DecidableEq

/-! ## C1 — weight-discrepancy detector

`EventDetector.detect_weight_discrepancies` scans the 20 most recent POS
records, considers only self-checkout stations (`station_id.startswith('SCC')`)
whose SKU is in the catalog, picks a category-dependent tolerance, and for
catalog weight `W > 0` fires iff `|actual - W| / W > tolerance` (strict). -/

/-- `detection_thresholds['weight_tolerance']`. -/
def weightToleranceThreshold : ℚ := 15/100

/-- The category-dependent tolerance: 0.25 for produce / bakery / deli,
0.20 when the product name mentions `package` or `bulk`, otherwise the
configured 0.15. -/
def weightTolerance (p : Product) : ℚ :=
  if strLower p.category ∈ [("produce" : String), "bakery", "deli"] then 25/100
  else if strContains (strLower p.name) ("package")
      || strContains (strLower p.name) ("bulk") then 20/100
  else weightToleranceThreshold

/-- The payload fields of a `Weight Discrepancy` event that the claim
mentions. -/
structure WeightEvent where
  name : String
  station : String
  sku : String
  expectedWeight : ℚ
  actualWeight : ℚ
deriving DecidableEq

/-- The per-record body of the `detect_weight_discrepancies` loop. -/
def weightEventFor (db : ProductsDb) (pos : PosRecord) : Option WeightEvent :=
  if strStarts pos.station ("SCC") then
    (lookupProduct db pos.sku).bind (fun p =>
      pos.sku.bind (fun s =>
        if 0 < p.weight then
          if weightTolerance p < |pos.weight - p.weight| / p.weight then
            some ⟨("Weight Discrepancy"), pos.station, s, p.weight, pos.weight⟩
          else none
        else none))
  else none

/-- `EventDetector.detect_weight_discrepancies`. -/
def detectWeightDiscrepancies (db : ProductsDb) (posData : List PosRecord) :
    List WeightEvent :=
  (lastN 20 posData).filterMap (weightEventFor db)

/-- A plain catalog product (no special category, no `package` / `bulk`
naming) with unit weight 1. -/
def productC1 : Product := ⟨("Canned Beans"), ("Canned Goods"), 150, 1, 50⟩

/-- C1 counterexample: a POS record at the regular-counter station `RC1`
whose actual weight deviates from the catalog weight by 900% produces no
alert — the detector only examines stations whose id starts with `SCC`, so
the claimed "for every POS record" iff fails as stated. -/
theorem C1_counterexample :
    detectWeightDiscrepancies [(("SKU1"), productC1)]
        [⟨("RC1"), some ("C1"), some ("SKU1"), 150, 10⟩] = []
    ∧ weightTolerance productC1
        < |(10 : ℚ) - productC1.weight| / productC1.weight
    ∧ 0 < productC1.weight := by
  refine ⟨?_, ?_, by norm_num [productC1]⟩
  · simp [detectWeightDiscrepancies, lastN, weightEventFor, strStarts, chStarts]
  · have htol : weightTolerance productC1 = weightToleranceThreshold := by
      unfold weightTolerance
      rw [if_neg (by decide), if_neg (by decide)]
    rw [htol]
    norm_num [productC1, weightToleranceThreshold]

/-- C1 (amended): for every POS record among the 20 most recent at a
self-checkout station (`SCC*`) whose SKU has catalog unit weight `W > 0`
and category-dependent tolerance `T`, the detector emits a
`Weight Discrepancy` event for that record iff `|actual - W| / W > T`
(so the boundary `|actual - W| / W = T` does not fire), and every emitted
event appears in the detector's output. -/
theorem C1_weight_discrepancy_law (db : ProductsDb) (posData : List PosRecord)
    (pos : PosRecord) (p : Product) (s : String)
    (hmem : pos ∈ lastN 20 posData)
    (hscc : strStarts pos.station ("SCC") = true)
    (hsku : pos.sku = some s)
    (hdb : lookupProduct db pos.sku = some p)
    (hw : 0 < p.weight) :
    ((weightEventFor db pos).isSome
        ↔ weightTolerance p < |pos.weight - p.weight| / p.weight)
    ∧ (∀ e, weightEventFor db pos = some e
        → e ∈ detectWeightDiscrepancies db posData) := by
  constructor
  · unfold weightEventFor
    rw [if_pos hscc, hdb, hsku]
    simp only [Option.some_bind]
    rw [if_pos hw]
    by_cases hlt : weightTolerance p < |pos.weight - p.weight| / p.weight
    · rw [if_pos hlt]
      simpa using hlt
    · rw [if_neg hlt]
      simpa using hlt
  · intro e he
    unfold detectWeightDiscrepancies
    rw [List.mem_filterMap]
    exact ⟨pos, hmem, he⟩

/-- Witness for C1 (amended) at a self-checkout record weighing 2 against a
catalog weight of 1. -/
theorem C1_weight_discrepancy_law_witness :
    ((weightEventFor [(("SKU1"), productC1)]
        ⟨("SCC1"), some ("C1"), some ("SKU1"), 150, 2⟩).isSome
      ↔ weightTolerance productC1 < |(2 : ℚ) - productC1.weight| / productC1.weight)
    ∧ (∀ e, weightEventFor [(("SKU1"), productC1)]
            ⟨("SCC1"), some ("C1"), some ("SKU1"), 150, 2⟩ = some e
        → e ∈ detectWeightDiscrepancies [(("SKU1"), productC1)]
            [⟨("SCC1"), some ("C1"), some ("SKU1"), 150, 2⟩]) :=
  C1_weight_discrepancy_law [(("SKU1"), productC1)]
    [⟨("SCC1"), some ("C1"), some ("SKU1"), 150, 2⟩]
    ⟨("SCC1"), some ("C1"), some ("SKU1"), 150, 2⟩ productC1 ("SKU1")
    (by simp [lastN]) (by decide) rfl
    (by simp [lookupProduct, productC1]) (by norm_num [productC1])

/-! ## Customer risk profiles

`customer_risk_profiles` is a `defaultdict` from customer id (possibly
`None`) to a profile whose fields relevant to the claims are `risk_score`
and `anomaly_count`; absent customers read as a fresh zero profile. -/

structure RiskProfile where
  riskScore : ℚ
  anomalyCount : ℕ
deriving DecidableEq

abbrev Profiles : Type := List (Option String × RiskProfile)

def defaultProfile : RiskProfile := ⟨0, 0⟩

def findProfile (profs : Profiles) (c : Option String) : Option RiskProfile :=
  (profs.find? (fun kv => kv.1 = c)).map (fun kv => kv.2)

/-- The stored risk score of a customer (0 for the lazily-created fresh
profile). -/
def profileRisk (profs : Profiles) (c : Option String) : ℚ :=
  ((findProfile profs c).map (fun pr => pr.riskScore)).getD 0

/-- A `defaultdict` read-modify-write: create the zero profile on first
reference, then apply the update. -/
def updateProfile (profs : Profiles) (c : Option String)
    (f : RiskProfile → RiskProfile) : Profiles :=
  if (findProfile profs c).isSome then
    profs.map (fun kv => if kv.1 = c then (c, f kv.2) else kv)
  else
    profs ++ [(c, f defaultProfile)]

/-- `EventDetector.calculate_confidence_score`: the average of the factor
values clamped into [0, 1] (0.5 when no factors are given). -/
def calculateConfidenceScore (factors : List ℚ) : ℚ :=
  if factors = [] then 1/2
  else min 1 (max 0 (factors.sum / (factors.length : ℚ)))

/-! ## C8 — scan-avoidance detector

`EventDetector.detect_scan_avoidance`: for each `IN_SCAN_AREA` RFID record
in the 50 most recent, look for a POS record with the same station and
customer and the same SKU (no time-window test is actually performed, the
45 s window exists only in a comment); if none is found and the SKU is
truthy, compute the confidence from four factors and fire iff it reaches
the 0.75 threshold, bumping the customer's risk score by 0.2. -/

/-- `detection_thresholds['scan_avoidance_confidence']`. -/
def scanAvoidanceThreshold : ℚ := 3/4

/-- The four confidence factors: normalized product value, stored customer
risk (0.3 when the customer has no profile), station type (0.8 for
self-checkout `SCC*`, else 0.5), and the fixed time factor 0.7. -/
def scanConfidence (db : ProductsDb) (profs : Profiles) (r : RfidRecord) : ℚ :=
  calculateConfidenceScore
    [min 1 (productPrice db r.sku / 500),
     if (findProfile profs r.customer).isSome then profileRisk profs r.customer
       else 3/10,
     if strStarts r.station ("SCC") then 4/5 else 1/2,
     7/10]

/-- The payload fields of a `Scanner Avoidance` event that the claim
mentions. -/
structure ScanEvent where
  name : String
  station : String
  customer : Option String
  sku : Option String
  productValue : ℚ
  confidence : ℚ
  sev : Sev
deriving DecidableEq

/-- The body of the `detect_scan_avoidance` loop for one scan-area RFID
record, threading the risk-profile store (which the loop itself mutates). -/
def scanAvoidanceStep (db : ProductsDb) (posRecent : List PosRecord)
    (st : Profiles × List ScanEvent) (r : RfidRecord) :
    Profiles × List ScanEvent :=
  let matching := posRecent.filter
    (fun pe => pe.station = r.station ∧ pe.customer = r.customer)
  let found := matching.any (fun pe => pe.sku = r.sku)
  if !found && truthyStr r.sku then
    if scanAvoidanceThreshold ≤ scanConfidence db st.1 r then
      (updateProfile st.1 r.customer
        (fun pr => ⟨min 1 (pr.riskScore + 1/5), pr.anomalyCount + 1⟩),
       st.2 ++ [⟨("Scanner Avoidance"), r.station, r.customer, r.sku,
                 productPrice db r.sku, scanConfidence db st.1 r,
                 if 9/10 < scanConfidence db st.1 r then Sev.high
                   else Sev.medium⟩])
    else st
  else st

/-- `EventDetector.detect_scan_avoidance`. -/
def detectScanAvoidance (db : ProductsDb) (profs : Profiles)
    (rfidData : List RfidRecord) (posData : List PosRecord) :
    Profiles × List ScanEvent :=
  ((lastN 50 rfidData).filter (fun r => r.loc = ("IN_SCAN_AREA"))).foldl
    (scanAvoidanceStep db (lastN 50 posData)) (profs, [])

/-- The scenario's RFID record. -/
def rfidC8 : RfidRecord :=
  ⟨("SCO-003"), some ("C1"), some ("X1"), ("IN_SCAN_AREA")⟩

/-- The scenario's catalog product, parametrized by its price. -/
def productC8 (p : ℚ) : Product :=
  ⟨("Wireless Headphones"), ("Electronics"), p, 2, 50⟩

/-- C8 counterexample: the scenario record at `SCO-003` with a customer that
has no risk profile and a 1000-price product yields NO alert — the
confidence is (1 + 0.3 + 0.5 + 0.7)/4 = 0.625 < 0.75, below the threshold
(for a non-`SCC` station with an unknown customer it can never reach
0.75). -/
theorem C8_counterexample :
    (detectScanAvoidance [(("X1"), productC8 1000)] [] [rfidC8] []).2 = [] := by
  have hconf : scanConfidence [(("X1"), productC8 1000)] [] rfidC8 = 5/8 := by
    unfold scanConfidence calculateConfidenceScore
    rw [if_neg (by simp)]
    have h1 : (findProfile ([] : Profiles) rfidC8.customer).isSome = false := by
      simp [findProfile]
    rw [if_neg (by rw [h1]; simp)]
    have h3 : strStarts rfidC8.station ("SCC") = false := by decide
    rw [if_neg (by rw [h3]; simp)]
    have hprice : productPrice [(("X1"), productC8 1000)] rfidC8.sku = 1000 := by
      simp [productPrice, lookupProduct, rfidC8, productC8]
    rw [hprice]
    norm_num [min_def, max_def]
  have hno : ¬ (scanAvoidanceThreshold
      ≤ scanConfidence [(("X1"), productC8 1000)] [] rfidC8) := by
    rw [hconf]
    norm_num [scanAvoidanceThreshold]
  unfold detectScanAvoidance scanAvoidanceStep
  have hloc : rfidC8.loc = ("IN_SCAN_AREA") := rfl
  have htruthy : truthyStr rfidC8.sku = true := by decide
  simp [lastN, hloc, htruthy, hno]

/-- C8 (amended): given the scenario RFID record
`{station: SCO-003, sku: X1, customer: C1, location: IN_SCAN_AREA}` in the
buffer and no POS record for the station/customer/SKU (the code performs no
45 s time test — the window exists only in a comment), with catalog price
`p` for `X1` and stored risk score `r` for `C1`, the detector emits exactly
one `Scanner Avoidance` alert for station `SCO-003` and SKU `X1` iff the
confidence `(min(1, p/500) + r + 0.5 + 0.7)/4` reaches the 0.75 threshold —
in particular never for an unknown customer (risk factor 0.3 caps it at
0.625). -/
theorem C8_scan_avoidance_scenario (p r : ℚ) (hp : 0 ≤ p) (hr0 : 0 ≤ r)
    (hr1 : r ≤ 1) :
    (scanAvoidanceThreshold ≤ (min 1 (p/500) + r + 1/2 + 7/10)/4 →
        (detectScanAvoidance [(("X1"), productC8 p)]
            [(some ("C1"), (⟨r, 0⟩ : RiskProfile))] [rfidC8] []).2
          = [⟨("Scanner Avoidance"), ("SCO-003"), some ("C1"), some ("X1"), p,
              (min 1 (p/500) + r + 1/2 + 7/10)/4,
              if 9/10 < (min 1 (p/500) + r + 1/2 + 7/10)/4 then Sev.high
                else Sev.medium⟩])
    ∧ ((min 1 (p/500) + r + 1/2 + 7/10)/4 < scanAvoidanceThreshold →
        (detectScanAvoidance [(("X1"), productC8 p)]
            [(some ("C1"), (⟨r, 0⟩ : RiskProfile))] [rfidC8] []).2 = []) := by
  have hprice : productPrice [(("X1"), productC8 p)] rfidC8.sku = p := by
    simp [productPrice, lookupProduct, rfidC8, productC8]
  have ha0 : (0 : ℚ) ≤ min 1 (p/500) := le_min (by norm_num) (by positivity)
  have ha1 : min 1 (p/500) ≤ 1 := min_le_left _ _
  have hconf : scanConfidence [(("X1"), productC8 p)]
      [(some ("C1"), (⟨r, 0⟩ : RiskProfile))] rfidC8
      = (min 1 (p/500) + r + 1/2 + 7/10)/4 := by
    unfold scanConfidence calculateConfidenceScore
    rw [if_neg (by simp)]
    have h1 : (findProfile [(some ("C1"), (⟨r, 0⟩ : RiskProfile))]
        rfidC8.customer).isSome = true := by
      simp [findProfile, rfidC8]
    rw [if_pos h1]
    have h2 : profileRisk [(some ("C1"), (⟨r, 0⟩ : RiskProfile))]
        rfidC8.customer = r := by
      simp [profileRisk, findProfile, rfidC8]
    rw [h2]
    have h3 : strStarts rfidC8.station ("SCC") = false := by decide
    rw [if_neg (by rw [h3]; simp), hprice]
    simp only [List.sum_cons, List.sum_nil, List.length_cons, List.length_nil]
    have hden : ((0 + 1 + 1 + 1 + 1 : ℕ) : ℚ) = 4 := by norm_num
    rw [hden]
    have hsum : min 1 (p/500) + (r + (1/2 + (7/10 + 0)))
        = min 1 (p/500) + r + 1/2 + 7/10 := by ring
    rw [hsum]
    rw [max_eq_right (by positivity), min_eq_right ?hle]
    case hle =>
      rw [div_le_one (by norm_num)]
      linarith
  have hloc : rfidC8.loc = ("IN_SCAN_AREA") := rfl
  have htruthy : truthyStr rfidC8.sku = true := by decide
  have hstation : rfidC8.station = ("SCO-003") := rfl
  have hcust : rfidC8.customer = some ("C1") := rfl
  have hsku : rfidC8.sku = some ("X1") := rfl
  constructor
  · intro h
    have hyes : scanAvoidanceThreshold
        ≤ scanConfidence [(("X1"), productC8 p)]
            [(some ("C1"), (⟨r, 0⟩ : RiskProfile))] rfidC8 := by
      rw [hconf]; exact h
    unfold detectScanAvoidance scanAvoidanceStep
    have htruthy2 : truthyStr (some ("X1")) = true := by decide
    have hprice2 : productPrice [(("X1"), productC8 p)] (some ("X1")) = p := by
      simp [productPrice, lookupProduct, productC8]
    simp [lastN, hloc, htruthy2, hconf, hprice2, hstation, hcust, hsku, h]
    rw [if_pos (by linarith [h])]
  · intro h
    have hno : ¬ (scanAvoidanceThreshold
        ≤ scanConfidence [(("X1"), productC8 p)]
            [(some ("C1"), (⟨r, 0⟩ : RiskProfile))] rfidC8) := by
      rw [hconf]; exact not_le.mpr h
    unfold detectScanAvoidance scanAvoidanceStep
    simp [lastN, hloc, htruthy, hno]

/-- Witness for C8 (amended): price 500 and stored risk 0.9 give confidence
0.775 ≥ 0.75, so exactly one `Scanner Avoidance` alert for `SCO-003` / `X1`
is emitted. -/
theorem C8_scan_avoidance_scenario_witness :
    (detectScanAvoidance [(("X1"), productC8 500)]
        [(some ("C1"), (⟨9/10, 0⟩ : RiskProfile))] [rfidC8] []).2
      = [⟨("Scanner Avoidance"), ("SCO-003"), some ("C1"), some ("X1"), 500,
          (min 1 ((500 : ℚ)/500) + 9/10 + 1/2 + 7/10)/4,
          if (9/10 : ℚ) < (min 1 ((500 : ℚ)/500) + 9/10 + 1/2 + 7/10)/4
            then Sev.high else Sev.medium⟩] :=
  (C8_scan_avoidance_scenario 500 (9/10) (by norm_num) (by norm_num)
      (by norm_num)).1
    (by norm_num [scanAvoidanceThreshold, min_def])

/-! ## C3 — barcode switching and the customer risk score

`EventDetector.detect_barcode_switching` pairs each recent recognition
event with recent POS events at the same station/customer; when a trigger
fires it computes
`risk_score = min(1, price_difference/1000 + (0.3 or 0.1))` — a value that
is NEGATIVE when the recognized price is far below the scanned price (only
the premium→basic trigger can fire then) — and adds it to the customer's
stored risk score.  This is the code path on which the risk-monotonicity
claim fails. -/

/-- The payload fields of a `Barcode Switching` event used here. -/
structure SwitchEvent where
  name : String
  station : String
  customer : Option String
  recognizedSku : String
  scannedSku : String
  priceDifference : ℚ
  riskScore : ℚ
deriving DecidableEq

/-- The three detection triggers, in source order (`price_ratio` is
`float('inf')` when the scanned price is not positive, so the ratio test
holds vacuously there). -/
def switchTriggers (rp sp : Product) : List String :=
  (if 200 < rp.price - sp.price
      ∧ (if 0 < sp.price then 2 < rp.price / sp.price else True)
    then [("major_price_gap")] else [])
  ++ (if rp.category ≠ sp.category ∧ 100 < rp.price - sp.price
    then [("category_price_mismatch")] else [])
  ++ (if strContains (strLower rp.name) ("premium")
        && strContains (strLower sp.name) ("basic")
    then [("premium_to_basic_switch")] else [])

/-- One recognition/POS pairing: same station and customer, truthy scanned
SKU present in the catalog, and at least one trigger. -/
def switchOutcome (db : ProductsDb) (recog : RecogRecord) (rp : Product)
    (recogSku : String) (pe : PosRecord) : Option SwitchEvent :=
  if pe.station = recog.station ∧ pe.customer = recog.customer then
    if truthyStr pe.sku then
      (lookupProduct db pe.sku).bind (fun sp =>
        pe.sku.bind (fun ssku =>
          if switchTriggers rp sp ≠ [] then
            some ⟨("Barcode Switching"), recog.station, recog.customer,
                  recogSku, ssku, rp.price - sp.price,
                  min 1 ((rp.price - sp.price)/1000
                    + (if 1 < (switchTriggers rp sp).length then 3/10
                        else 1/10))⟩
          else none))
    else none
  else none

/-- The inner-loop body: emit the event and, when the customer id is truthy,
add the event's (possibly negative) risk score to the stored profile via
`min(1.0, risk_score + delta)`. -/
def switchStep (db : ProductsDb) (recog : RecogRecord) (rp : Product)
    (recogSku : String) (st : Profiles × List SwitchEvent) (pe : PosRecord) :
    Profiles × List SwitchEvent :=
  match switchOutcome db recog rp recogSku pe with
  | none => st
  | some ev =>
    (if truthyStr recog.customer then
        updateProfile st.1 recog.customer
          (fun pr => ⟨min 1 (pr.riskScore + ev.riskScore), pr.anomalyCount⟩)
      else st.1,
     st.2 ++ [ev])

/-- `EventDetector.detect_barcode_switching` over the 30 most recent
recognition and POS records, threading the risk-profile store. -/
def detectBarcodeSwitching (db : ProductsDb) (profs : Profiles)
    (recogData : List RecogRecord) (posData : List PosRecord) :
    Profiles × List SwitchEvent :=
  (lastN 30 recogData).foldl
    (fun st recog =>
      if truthyStr recog.sku then
        match lookupProduct db recog.sku, recog.sku with
        | some rp, some rsku =>
          (lastN 30 posData).foldl (switchStep db recog rp rsku) st
        | _, _ => st
      else st)
    (profs, [])

def prodR : Product := ⟨("Premium Ceylon Tea"), ("Beverages"), 0, 1, 50⟩

def prodS : Product := ⟨("Basic Ceylon Tea"), ("Beverages"), 500, 1, 50⟩

def dbC3 : ProductsDb := [(("R1"), prodR), (("S1"), prodS)]

def recogC3 : RecogRecord := ⟨("SCC1"), some ("C1"), some ("R1")⟩

def posC3 : PosRecord := ⟨("SCC1"), some ("C1"), some ("S1"), 500, 1⟩

def evC3 : SwitchEvent :=
  ⟨("Barcode Switching"), ("SCC1"), some ("C1"), ("R1"), ("S1"), -500, -2/5⟩

theorem switchTriggers_C3 :
    switchTriggers prodR prodS = [("premium_to_basic_switch")] := by
  have h1 : ¬ (200 < prodR.price - prodS.price
      ∧ (if 0 < prodS.price then 2 < prodR.price / prodS.price else True)) := by
    intro hc
    have h := hc.1
    norm_num [prodR, prodS] at h
  have h2 : ¬ (prodR.category ≠ prodS.category
      ∧ 100 < prodR.price - prodS.price) := by
    intro hc
    exact hc.1 rfl
  have h3 : (strContains (strLower prodR.name) ("premium")
      && strContains (strLower prodS.name) ("basic")) = true := by decide
  unfold switchTriggers
  rw [if_neg h1, if_neg h2, if_pos h3]
  rfl

theorem switchOutcome_C3 :
    switchOutcome dbC3 recogC3 prodR ("R1") posC3 = some evC3 := by
  unfold switchOutcome
  rw [if_pos ⟨rfl, rfl⟩, if_pos (by decide : truthyStr posC3.sku = true)]
  have hlook : lookupProduct dbC3 posC3.sku = some prodS := by
    simp [lookupProduct, dbC3, posC3]
  have hsku : posC3.sku = some ("S1") := rfl
  rw [hlook, hsku]
  simp only [Option.some_bind]
  have hne : switchTriggers prodR prodS ≠ [] := by
    rw [switchTriggers_C3]; simp
  rw [if_pos hne, switchTriggers_C3]
  norm_num [recogC3, prodR, prodS, evC3, min_def]

theorem switchStep_C3 (st : Profiles × List SwitchEvent) :
    switchStep dbC3 recogC3 prodR ("R1") st posC3
      = (updateProfile st.1 (some ("C1"))
          (fun pr => ⟨min 1 (pr.riskScore + (-2/5 : ℚ)), pr.anomalyCount⟩),
         st.2 ++ [evC3]) := by
  unfold switchStep
  simp only [switchOutcome_C3]
  have htc : truthyStr recogC3.customer = true := by decide
  rw [if_pos htc]
  simp [evC3, recogC3]

theorem detectBarcodeSwitching_C3 (profs : Profiles) :
    detectBarcodeSwitching dbC3 profs [recogC3] [posC3]
      = (updateProfile profs (some ("C1"))
          (fun pr => ⟨min 1 (pr.riskScore + (-2/5 : ℚ)), pr.anomalyCount⟩),
         [evC3]) := by
  unfold detectBarcodeSwitching
  have hlookR : lookupProduct dbC3 recogC3.sku = some prodR := by
    simp [lookupProduct, dbC3, recogC3]
  have h130 : (1 : ℕ) - 30 = 0 := rfl
  simp only [lastN, List.length_singleton, h130, List.drop_zero,
    List.foldl_cons, List.foldl_nil]
  have htr : truthyStr recogC3.sku = true := by decide
  rw [if_pos htr]
  have hskuR : recogC3.sku = some ("R1") := rfl
  have hlookR2 : lookupProduct dbC3 (some ("R1")) = some prodR := by
    simp [lookupProduct, dbC3]
  simp only [hskuR, hlookR2]
  rw [switchStep_C3]
  simp

/-- C3, evaluated at the failing input: one barcode-switching evaluation
(recognized product named `Premium ...` with catalog price 0 against a
scanned product named `Basic ...` with price 500, same customer `C1`)
LOWERS the stored risk score from its fresh value 0 to -2/5, and a second
identical evaluation lowers it again to -4/5: the risk score decreases
without any reset, and even leaves the documented [0, 1] range. -/
theorem C3_risk_decrease :
    profileRisk (detectBarcodeSwitching dbC3 [] [recogC3] [posC3]).1
        (some ("C1"))
      < profileRisk ([] : Profiles) (some ("C1"))
    ∧ profileRisk (detectBarcodeSwitching dbC3
          (detectBarcodeSwitching dbC3 [] [recogC3] [posC3]).1
          [recogC3] [posC3]).1 (some ("C1"))
      < profileRisk (detectBarcodeSwitching dbC3 [] [recogC3] [posC3]).1
          (some ("C1")) := by
  have h1 : (detectBarcodeSwitching dbC3 [] [recogC3] [posC3]).1
      = [(some ("C1"), (⟨-2/5, 0⟩ : RiskProfile))] := by
    rw [detectBarcodeSwitching_C3]
    simp [updateProfile, findProfile, defaultProfile, min_def]
    norm_num
  have h2 : (detectBarcodeSwitching dbC3
        [(some ("C1"), (⟨-2/5, 0⟩ : RiskProfile))] [recogC3] [posC3]).1
      = [(some ("C1"), (⟨-4/5, 0⟩ : RiskProfile))] := by
    rw [detectBarcodeSwitching_C3]
    simp [updateProfile, findProfile, min_def]
    norm_num
  constructor
  · rw [h1]
    simp [profileRisk, findProfile]
    norm_num
  · rw [h1, h2]
    simp [profileRisk, findProfile]
    norm_num

/-! ## C9 — enhanced inventory discrepancy detection

`EventDetector.detect_inventory_discrepancies_enhanced` tallies, per truthy
SKU over the 100 most recent POS and RFID records, the sales count and RFID
detections; for SKUs present in the catalog it collects anomaly indicators
(`rfid_detections > sales_count + 2`, price > 500 with more than 5 sales,
negative expected remaining inventory) and emits an
`Advanced Inventory Discrepancy` event iff any indicator fired. -/

structure InvEvent where
  name : String
  sku : String
  initialInventory : ℤ
  salesRecorded : ℕ
  rfidDetections : ℕ
  expectedRemaining : ℤ
  indicators : List String
  riskScore : ℚ
  sev : Sev
deriving DecidableEq

/-- A truthy SKU field (`if sku:`), or nothing. -/
def truthySku : Option String → Option String
  | none => none
  | some s => if s.data.isEmpty then none else some s

def dedupAppend (ks : List String) (k : String) : List String :=
  if k ∈ ks then ks else ks ++ [k]

/-- The insertion-ordered key list of `product_analytics`: SKUs in POS-loop
order first, then new SKUs from the RFID loop. -/
def skuKeys (pos : List PosRecord) (rfid : List RfidRecord) : List String :=
  (rfid.filterMap (fun r => truthySku r.sku)).foldl dedupAppend
    ((pos.filterMap (fun p => truthySku p.sku)).foldl dedupAppend [])

def salesCount (pos : List PosRecord) (sku : String) : ℕ :=
  (pos.filter (fun p => truthySku p.sku = some sku)).length

def rfidCount (rfid : List RfidRecord) (sku : String) : ℕ :=
  (rfid.filter (fun r => truthySku r.sku = some sku)).length

/-- The per-SKU body of the analysis loop (SKUs missing from the catalog
produce nothing). -/
def inventoryEventFor (db : ProductsDb) (pos : List PosRecord)
    (rfid : List RfidRecord) (sku : String) : Option InvEvent :=
  (lookupProduct db (some sku)).bind (fun p =>
    let sales : ℤ := (salesCount pos sku : ℤ)
    let det : ℤ := (rfidCount rfid sku : ℤ)
    let expected : ℤ := p.quantity - sales
    let indicators : List String :=
      (if sales + 2 < det then [("excess_rfid_detections")] else [])
      ++ (if 500 < p.price ∧ 5 < sales then [("high_value_volume")] else [])
      ++ (if expected < 0 then [("negative_inventory")] else [])
    let risk : ℚ :=
      (if sales + 2 < det then 2/5 else 0)
      + (if 500 < p.price ∧ 5 < sales then 3/10 else 0)
      + (if expected < 0 then 1/2 else 0)
    if 3/5 < risk ∨ indicators ≠ [] then
      some ⟨("Advanced Inventory Discrepancy"), sku, p.quantity,
            salesCount pos sku, rfidCount rfid sku, expected, indicators, risk,
            if 4/5 < risk then Sev.high else Sev.medium⟩
    else none)

/-- `EventDetector.detect_inventory_discrepancies_enhanced`. -/
def detectInventoryDiscrepanciesEnhanced (db : ProductsDb)
    (posData : List PosRecord) (rfidData : List RfidRecord) : List InvEvent :=
  (skuKeys (lastN 100 posData) (lastN 100 rfidData)).filterMap
    (inventoryEventFor db (lastN 100 posData) (lastN 100 rfidData))

def prodC9 (q : ℤ) : Product := ⟨("Energy Drink"), ("Beverages"), 100, 1, q⟩

def posC9 : PosRecord := ⟨("SCC1"), some ("C1"), some ("X"), 100, 1⟩

def rfidC9 : RfidRecord := ⟨("SCC1"), some ("C1"), some ("X"), ("BACKROOM")⟩

/-- C9 counterexample: a SKU with exactly 2 recorded sales and exactly 4
RFID detections produces NO alert when the catalog's initial inventory
covers the sales (here 10): 4 detections do not exceed `sales + 2 = 4`, so
no anomaly indicator fires. -/
theorem C9_counterexample :
    detectInventoryDiscrepanciesEnhanced [(("X"), prodC9 10)] [posC9, posC9]
        [rfidC9, rfidC9, rfidC9, rfidC9] = []
    ∧ salesCount [posC9, posC9] ("X") = 2
    ∧ rfidCount [rfidC9, rfidC9, rfidC9, rfidC9] ("X") = 4 := by
  refine ⟨?_, by decide, by decide⟩
  have hkeys : skuKeys (lastN 100 [posC9, posC9])
      (lastN 100 [rfidC9, rfidC9, rfidC9, rfidC9]) = [("X")] := by decide
  have hsc : salesCount (lastN 100 [posC9, posC9]) ("X") = 2 := by decide
  have hrc : rfidCount (lastN 100 [rfidC9, rfidC9, rfidC9, rfidC9]) ("X") = 4 := by
    decide
  have hlook : lookupProduct [(("X"), prodC9 10)] (some ("X"))
      = some (prodC9 10) := by decide
  have hev : inventoryEventFor [(("X"), prodC9 10)] (lastN 100 [posC9, posC9])
      (lastN 100 [rfidC9, rfidC9, rfidC9, rfidC9]) ("X") = none := by
    unfold inventoryEventFor
    rw [hlook]
    simp only [Option.some_bind]
    rw [hsc, hrc]
    norm_num [prodC9]
  unfold detectInventoryDiscrepanciesEnhanced
  rw [hkeys]
  simp [hev]

/-- The event the amended scenario produces. -/
def invEvC9 : InvEvent :=
  ⟨("Advanced Inventory Discrepancy"), ("X"), 1, 2, 4, -1,
   [("negative_inventory")], 1/2, Sev.medium⟩

/-- C9 (amended): with exactly 2 recorded sales and 4 RFID detections, an
alert is produced only when an anomaly indicator fires — 4 detections miss
the excess margin (`detections > sales + 2`), but when the catalog's initial
inventory (here 1) is below the sales count the negative-remaining indicator
fires and exactly one event named `Advanced Inventory Discrepancy` (not
`Inventory Discrepancy`) is emitted, reporting `rfid_detections = 4` and
`sales_recorded = 2`. -/
theorem C9_inventory_scenario :
    detectInventoryDiscrepanciesEnhanced [(("X"), prodC9 1)] [posC9, posC9]
        [rfidC9, rfidC9, rfidC9, rfidC9] = [invEvC9]
    ∧ invEvC9.rfidDetections = 4 ∧ invEvC9.salesRecorded = 2
    ∧ invEvC9.name = ("Advanced Inventory Discrepancy") := by
  refine ⟨?_, rfl, rfl, rfl⟩
  have hkeys : skuKeys (lastN 100 [posC9, posC9])
      (lastN 100 [rfidC9, rfidC9, rfidC9, rfidC9]) = [("X")] := by decide
  have hsc : salesCount (lastN 100 [posC9, posC9]) ("X") = 2 := by decide
  have hrc : rfidCount (lastN 100 [rfidC9, rfidC9, rfidC9, rfidC9]) ("X") = 4 := by
    decide
  have hlook : lookupProduct [(("X"), prodC9 1)] (some ("X"))
      = some (prodC9 1) := by decide
  have hev : inventoryEventFor [(("X"), prodC9 1)] (lastN 100 [posC9, posC9])
      (lastN 100 [rfidC9, rfidC9, rfidC9, rfidC9]) ("X") = some invEvC9 := by
    unfold inventoryEventFor
    rw [hlook]
    simp only [Option.some_bind]
    rw [hsc, hrc]
    norm_num [prodC9, invEvC9]
  unfold detectInventoryDiscrepanciesEnhanced
  rw [hkeys]
  simp [hev]
